import Mathlib

/-!
Verification of the multi-format dataset I/O layer and export pipeline of the
amplus digital twin repository (`src/elfantasma/io.py`, the Reader/Writer
backends and dispatch, and `amplus/command_line/__init__.py`, the `export`
command).  Machine numbers are modelled as rationals, Python arrays as Lean
lists, and fallible code (Python `assert` / `raise` / `KeyError`) as `Except`.
-/

namespace Amplus

/-! ### Element types

NumPy dtypes relevant to the I/O layer (`io.py` uses these names through
`numpy.dtype(...)`). -/

inductive Dtype where
  | uint8
  | int8
  | int16
  | uint16
  | int32
  | uint32
  | float32
  | float64
  | complex64
  | complex128
deriving DecidableEq, Repr

/-- The dtype narrowing performed by `MrcFileWriter.__init__` (io.py lines
181-188): the `if dtype == "int32" ... elif dtype == "complex128"` chain. -/
def mrcNarrowDtype : Dtype → Dtype
  | .int32 => .int16
  | .uint32 => .uint16
  | .float64 => .float32
  | .complex128 => .complex64
  | d => d

/-! ### Filename extension extraction and lowering

`io.py` routes on `os.path.splitext(filename)[1].lower()`.  We model Python's
`os.path.splitext` for POSIX paths: the extension is the suffix of the
basename starting at its last dot, unless every character of the basename
before that dot is itself a dot (so `".mrc"` has no extension). -/

/-- Characters of the basename: the part of the path after the last slash. -/
def basenameChars (cs : List Char) : List Char :=
  cs.foldl (fun acc c => if c = '/' then [] else acc ++ [c]) []

/-- Index of the last dot in a character list (Python `str.rfind('.')`),
`none` when there is no dot. -/
def lastDotIndex (cs : List Char) : Option Nat :=
  ((cs.enum.filter (fun p => p.2 = '.')).getLast?).map (fun p => p.1)

/-- `os.path.splitext(s)[1]`: the extension, including its leading dot. -/
def pySplitextExt (s : String) : String :=
  let cs := basenameChars s.data
  match lastDotIndex cs with
  | none => ""
  | some d => if (cs.take d).any (fun c => c != '.') then String.mk (cs.drop d) else ""

/-- Python `str.lower()` restricted to ASCII, which is all the router compares. -/
def pyLower (s : String) : String := String.mk (s.data.map Char.toLower)

/-- `os.path.splitext(filename)[1].lower()` as computed by `new`,
`Reader.from_file` (io.py lines 685, 710). -/
def lowerExt (s : String) : String := pyLower (pySplitextExt s)

/-! ### Format dispatch (io.py `new` and `Reader.from_file`) -/

inductive WriterKind where
  | mrcW
  | nexusW
  | imageW
deriving DecidableEq, Repr

inductive ReaderKind where
  | mrcR
  | nexusR
deriving DecidableEq, Repr

/-- The structured-container extension list from io.py lines 688 and 713.
Note the final entry `"nxtomo"` has no leading dot, exactly as in the source. -/
def nexusExts : List String := [".h5", ".hdf5", ".nx", ".nxs", ".nexus", "nxtomo"]

/-- The image-sequence extension list from io.py line 715. -/
def imageExts : List String := [".png", ".jpg", ".jpeg", ".tif", ".tiff"]

/-- `io.new` (io.py lines 694-718) restricted to its routing decision: which
writer backend is constructed, or the `RuntimeError` message raised. -/
def ioNew (filename : String) : Except String WriterKind :=
  let extension := lowerExt filename
  if extension ∈ [".mrc"] then .ok .mrcW
  else if extension ∈ nexusExts then .ok .nexusW
  else if extension ∈ imageExts then .ok .imageW
  else .error ("File with unknown extension: " ++ filename)

/-- `Reader.from_file` (io.py lines 676-691), and therefore `io.open`,
restricted to its routing decision. -/
def ioOpenRoute (filename : String) : Except String ReaderKind :=
  let extension := lowerExt filename
  if extension ∈ [".mrc"] then .ok .mrcR
  else if extension ∈ nexusExts then .ok .nexusR
  else .error ("File with unknown extension: " ++ filename)

/-! ### numpy min / max over a frame -/

/-- `numpy.min` on a flattened nonempty array (we never apply it to an empty
one, matching the source, and return 0 on `[]` to stay total). -/
def qmin : List ℚ → ℚ
  | [] => 0
  | x :: xs => xs.foldl min x

/-- `numpy.max` on a flattened nonempty array. -/
def qmax : List ℚ → ℚ
  | [] => 0
  | x :: xs => xs.foldl max x

/-! ### Export dynamic-range stage (`amplus/command_line/__init__.py` 411-444) -/

/-- The image writer's mutable `(vmin, vmax)` pair (`None` = unset). -/
structure ImgRange where
  vmin : Option ℚ
  vmax : Option ℚ
deriving DecidableEq, Repr

/-- Python truthiness of an optional float: `None` and `0.0` are falsy.
This models the guards `if args.vmin:` / `if args.vmax:` on lines 441, 443. -/
def pyTruthy : Option ℚ → Bool
  | none => false
  | some q => q != 0

/-- The `export` command's dynamic-range stage for image output
(`__init__.py` lines 412-444).  `frames` is the list of selected, cropped,
complex-mode-transformed images, in selection order; `w` is the writer's
range state on entry (`(None, None)` in `export`, since `amplus.io.new` is
called without `vmin`/`vmax`).  The scan runs when either argument is `None`
(`is None` checks, line 413); each override runs when the argument is truthy
(lines 441-444). -/
def exportComputeRange (argsVmin argsVmax : Option ℚ) (frames : List (List ℚ))
    (w : ImgRange) : ImgRange :=
  let w1 :=
    if argsVmin = none ∨ argsVmax = none then
      { vmin := some (qmin (frames.map qmin)), vmax := some (qmax (frames.map qmax)) }
    else w
  let w2 := if pyTruthy argsVmin then { w1 with vmin := argsVmin } else w1
  if pyTruthy argsVmax then { w2 with vmax := argsVmax } else w2

/-! ### Export complex-mode transform (`__init__.py` lines 387-391, 460-470) -/

/-- A complex pixel value. -/
structure Cplx where
  re : ℚ
  im : ℚ
deriving DecidableEq, Repr

/-- The output dtype choice of `export` (lines 388-391): any complex mode
other than `"complex"` forces `"float64"`, else the reader's dtype is kept. -/
def exportDtype (mode : String) (readerDtype : Dtype) : Dtype :=
  if mode ≠ "complex" then .float64 else readerDtype

/-- The `"imaginary_square"` entry of the transform dictionary (line 469):
`lambda x: numpy.imag(x) ** 2 + 1`, applied per pixel. -/
def imaginarySquarePixel (z : Cplx) : ℚ := z.im ^ 2 + 1

/-- The `"imaginary_square"` transform applied elementwise to a frame. -/
def imaginarySquareFrame (frame : List Cplx) : List ℚ :=
  frame.map imaginarySquarePixel

/-! ### Image-sequence frame write (`ImageWriter.DataProxy.__setitem__`,
io.py lines 396-433), real-valued path.  (For complex input the frame is
first replaced by its squared magnitude and both endpoints are reset to
`None`; the claims below only concern real frames.) -/

/-- The effective `(vmin, vmax)` of a frame write: each endpoint defaults to
the frame's own extremum when unset (io.py lines 419-426). -/
def imageEffectiveRange (vminOpt vmaxOpt : Option ℚ) (frame : List ℚ) : ℚ × ℚ :=
  (vminOpt.getD (qmin frame), vmaxOpt.getD (qmax frame))

/-- The divisor of the rescale factor `s1 = 255.0 / (vmax - vmin)`
(io.py line 427).  No guard against zero exists in the source. -/
def imageRescaleDenom (vminOpt vmaxOpt : Option ℚ) (frame : List ℚ) : ℚ :=
  (imageEffectiveRange vminOpt vmaxOpt frame).2 - (imageEffectiveRange vminOpt vmaxOpt frame).1

/-- The affine rescale `(s1, s0)` with `s1 = 255.0 / (vmax - vmin)` and
`s0 = -s1 * vmin` (io.py lines 427-428), computed unconditionally. -/
def imageRescale (vminOpt vmaxOpt : Option ℚ) (frame : List ℚ) : ℚ × ℚ :=
  let vmin := (imageEffectiveRange vminOpt vmaxOpt frame).1
  let s1 := 255 / imageRescaleDenom vminOpt vmaxOpt frame
  (s1, -s1 * vmin)

/-- The pixel values `data * s1 + s0` written on a frame write (io.py line
432), before the final `uint8` quantization. -/
def imageWriterWriteFrame (vminOpt vmaxOpt : Option ℚ) (frame : List ℚ) : List ℚ :=
  let p := imageRescale vminOpt vmaxOpt frame
  frame.map (fun x => x * p.1 + p.2)

/-! ### The Binary-Volume (MRC) backend

`MrcFileWriter` (io.py lines 117-236) writes per-frame metadata into an
FEI1 extended header; `Reader.from_mrcfile` (lines 598-636) reads it back.
An extended-header record holds the fields the code touches; the numeric
fields are modelled as exact rationals (the claims are stated up to the
header fields' stored precision). -/

structure FeiRecord where
  alphaTilt : ℚ := 0
  shiftX : ℚ := 0
  shiftY : ℚ := 0
  pixelSizeX : ℚ := 0
  pixelSizeY : ℚ := 0
  application : String := ""
deriving DecidableEq, Repr

/-- The on-disk state an `MrcFileWriter` produces and `Reader.from_mrcfile`
consumes: frame count (`data.shape[0]`), the header's `exttyp` tag, the
extended-header records, the global voxel-size record, and the data mode's
dtype. -/
structure MrcFile where
  nframes : Nat
  exttyp : String
  extHeader : List FeiRecord
  voxelSize : ℚ
  dtype : Dtype
deriving DecidableEq, Repr

/-- Update the element at index `i` of a list in place. -/
def updateAt : Nat → (α → α) → List α → List α
  | _, _, [] => []
  | 0, g, x :: xs => g x :: xs
  | n + 1, g, x :: xs => x :: updateAt n g xs

/-- `MrcFileWriter.__init__` (io.py lines 166-221): narrow the dtype, open the
file with `exttyp = "FEI1"` and a zeroed extended header of `shape[0]`
records, store `pixel_size` in the voxel-size record unchanged (line 212),
and store `pixel_size * 1e-10` in every record's per-frame pixel-size fields
(lines 213-216). -/
def MrcFileWriter.init (n : Nat) (pixelSize : ℚ) (d : Dtype) : MrcFile :=
  { nframes := n
    exttyp := "FEI1"
    extHeader := List.replicate n
      { alphaTilt := 0
        shiftX := 0
        shiftY := 0
        pixelSizeX := pixelSize * (1 / 10 ^ 10)
        pixelSizeY := pixelSize * (1 / 10 ^ 10)
        application := "RFI Simulation" }
    voxelSize := pixelSize
    dtype := mrcNarrowDtype d }

/-- The writer's `pixel_size` property (io.py lines 223-229):
`handle.voxel_size[0]`, i.e. the x component of the voxel-size record, which
holds the same scalar in every component. -/
def MrcFileWriter.pixel_size (f : MrcFile) : ℚ := f.voxelSize

/-- `MrcFileWriter.AngleProxy.__setitem__` at an integer index (io.py lines
123-133): `extended_header[i]["Alpha tilt"] = data`. -/
def MrcFileWriter.setAngle (f : MrcFile) (i : Nat) (a : ℚ) : MrcFile :=
  { f with extHeader := updateAt i (fun r => { r with alphaTilt := a }) f.extHeader }

/-- `MrcFileWriter.PositionProxy.__setitem__` at an integer index (io.py
lines 135-164): the meshgrid row for frame `i` pairs the components with
column indices `0, 1, 2`, and `setitem_internal` stores column 0 into
`"Shift X"`, column 1 into `"Shift Y"`, and drops column 2 (the Z
coordinate is never stored). -/
def MrcFileWriter.setPosition (f : MrcFile) (i : Nat) (pos : ℚ × ℚ × ℚ) : MrcFile :=
  { f with
    extHeader :=
      updateAt i (fun r => { r with shiftX := pos.1, shiftY := pos.2.1 }) f.extHeader }

/-- Write frames `0, …, n-1`: for each frame set its angle then its position
(the order callers use: `writer.angle[i] = …; writer.position[i] = …`). -/
def writeFrames (a : List ℚ) (ps : List (ℚ × ℚ × ℚ)) : Nat → MrcFile → MrcFile
  | 0, f => f
  | n + 1, f =>
    MrcFileWriter.setPosition
      (MrcFileWriter.setAngle (writeFrames a ps n f) n (a.getD n 0))
      n (ps.getD n (0, 0, 0))

/-! ### The Reader (io.py lines 486-691) -/

/-- The in-memory dataset a read constructor returns. -/
structure Reader where
  nframes : Nat
  angle : List ℚ
  position : List (ℚ × ℚ × ℚ)
  pixel_size : ℚ
deriving DecidableEq, Repr

/-- `Reader.__init__` (io.py lines 492-514): asserts
`len(angle) == data.shape[0]` and `len(position) == data.shape[0]`
("Inconsistent dimensions") before storing the arrays. -/
def Reader.make (n : Nat) (angle : List ℚ) (position : List (ℚ × ℚ × ℚ))
    (pixelSize : ℚ) : Except String Reader :=
  if angle.length = n ∧ position.length = n then
    .ok { nframes := n, angle := angle, position := position, pixel_size := pixelSize }
  else .error "Inconsistent dimensions"

/-- `Reader.step_angle` (io.py lines 534-549): `1` for a single frame, else
`(angle[-1] - angle[0]) / (len(angle) - 1)`. -/
def Reader.step_angle (r : Reader) : ℚ :=
  if r.angle.length = 1 then 1
  else (r.angle.getLast?.getD 0 - r.angle.head?.getD 0) / ((r.angle.length : ℚ) - 1)

/-- `Reader.step_position` (io.py lines 569-587): for more than one frame the
step is `(position[-1, 1] - position[0, 1]) / (position.shape[0] - 1)` over
the Y column, guarded by an assertion that zips `position[0:-1, 1]` with the
slice `position[1:1]` — which is empty, exactly as in the source; otherwise
the step is `0`. -/
def Reader.step_position (r : Reader) : Except String ℚ :=
  if 1 < r.position.length then
    let ys := r.position.map (fun p => p.2.1)
    let step := (ys.getLast?.getD 0 - ys.head?.getD 0) / ((r.position.length : ℚ) - 1)
    if ((ys.take (ys.length - 1)).zip ((ys.drop 1).take 0)).all
        (fun ab => |ab.2 - ab.1 - step| < 1 / 10 ^ 7) then
      .ok step
    else .error "AssertionError"
  else .ok 0

/-- `Reader.from_mrcfile` (io.py lines 598-636): if the header declares
`exttyp == "FEI1"`, assert the extended header matches the data frame count
and rebuild `angle` from `"Alpha tilt"` and `position` from
`("Shift X", "Shift Y", 0)`; otherwise return all-zero angle and position
arrays sized by the frame count.  The pixel size is read from the global
voxel-size record unchanged (line 633). -/
def Reader.from_mrcfile (f : MrcFile) : Except String Reader :=
  if f.exttyp = "FEI1" then
    if f.extHeader.length = f.nframes then
      Reader.make f.nframes (f.extHeader.map (fun r => r.alphaTilt))
        (f.extHeader.map (fun r => (r.shiftX, r.shiftY, (0 : ℚ)))) f.voxelSize
    else .error "AssertionError"
  else
    Reader.make f.nframes (List.replicate f.nframes 0)
      (List.replicate f.nframes ((0 : ℚ), (0 : ℚ), (0 : ℚ))) f.voxelSize

/-! ### The Structured-Container (NeXus) read path (io.py lines 638-674) -/

/-- The parts of a NeXus/HDF5 container `Reader.from_nexus` touches. -/
structure NexusFile where
  entryNXClass : String
  definition : Option String
  xPixelSize : List ℚ
  rotationAngle : List ℚ
  xTranslation : List ℚ
  yTranslation : List ℚ
  zTranslation : List ℚ
  nframes : Nat
deriving DecidableEq, Repr

/-- `Reader.from_nexus` (io.py lines 638-674): assert the entry's
`NX_class` is `"NXentry"`, look up `entry["definition"]` (a missing entry is
a `KeyError`), assert it equals `"NXtomo"`, build positions by transposing
the three translation arrays, read `pixel_size` from the first
`x_pixel_size` entry (an empty one is an `IndexError`), and construct the
Reader. -/
def Reader.from_nexus (f : NexusFile) : Except String Reader :=
  if f.entryNXClass = "NXentry" then
    match f.definition with
    | none => .error "KeyError: definition"
    | some d =>
      if d = "NXtomo" then
        match f.xPixelSize.head? with
        | none => .error "IndexError: x_pixel_size"
        | some px =>
          Reader.make f.nframes f.rotationAngle
            ((f.xTranslation.zip (f.yTranslation.zip f.zTranslation)).map
              (fun p => (p.1, p.2.1, p.2.2))) px
      else .error "AssertionError: definition is not NXtomo"
  else .error "AssertionError: NX_class is not NXentry"

/-! ### Spec-side definition for the derived-statistics law (claim C2)

The spec states the step scalars as "the mean first-difference across
consecutive frames"; this definition follows those words, to be compared
with the code's `step_angle` / `step_position`. -/

/-- The mean of the consecutive differences of a sequence. -/
def specMeanFirstDiff (xs : List ℚ) : ℚ :=
  (((xs.zip xs.tail).map (fun ab => ab.2 - ab.1)).sum) / ((xs.length : ℚ) - 1)

/-! ## Helper lemmas -/

theorem foldl_min_replicate (m : Nat) (x : ℚ) :
    List.foldl min x (List.replicate m x) = x := by
  induction m with
  | zero => rfl
  | succ k ih => simpa [List.replicate_succ] using ih

theorem foldl_max_replicate (m : Nat) (x : ℚ) :
    List.foldl max x (List.replicate m x) = x := by
  induction m with
  | zero => rfl
  | succ k ih => simpa [List.replicate_succ] using ih

theorem qmin_replicate (n : Nat) (c : ℚ) (hn : 0 < n) :
    qmin (List.replicate n c) = c := by
  cases n with
  | zero => omega
  | succ m => simpa [List.replicate_succ, qmin] using foldl_min_replicate m c

theorem qmax_replicate (n : Nat) (c : ℚ) (hn : 0 < n) :
    qmax (List.replicate n c) = c := by
  cases n with
  | zero => omega
  | succ m => simpa [List.replicate_succ, qmax] using foldl_max_replicate m c

theorem sum_consecutive_diffs (x : ℚ) (xs : List ℚ) :
    (((x :: xs).zip xs).map (fun ab => ab.2 - ab.1)).sum =
      (x :: xs).getLast?.getD 0 - x := by
  induction xs generalizing x with
  | nil => simp
  | cons y t ih =>
    have := ih y
    simp only [List.zip_cons_cons, List.map_cons, List.sum_cons, List.getLast?_cons_cons]
    rw [show ((y :: t).zip t).map (fun ab => ab.2 - ab.1) =
      ((y :: t).zip t).map (fun ab => ab.2 - ab.1) from rfl]
    rw [this]
    ring

theorem stepFormula_eq_specMeanFirstDiff (xs : List ℚ) :
    (xs.getLast?.getD 0 - xs.head?.getD 0) / ((xs.length : ℚ) - 1) =
      specMeanFirstDiff xs := by
  cases xs with
  | nil => simp [specMeanFirstDiff]
  | cons x t =>
    rw [specMeanFirstDiff]
    simp only [List.tail_cons, List.head?_cons, Option.getD_some]
    rw [sum_consecutive_diffs]

theorem updateAt_nil (i : Nat) (g : α → α) : updateAt i g [] = [] := by
  cases i <;> rfl

theorem length_updateAt (i : Nat) (g : α → α) (l : List α) :
    (updateAt i g l).length = l.length := by
  induction l generalizing i with
  | nil => simp [updateAt_nil]
  | cons x xs ih =>
    cases i with
    | zero => rfl
    | succ j => simp [updateAt, ih]

theorem getElem?_updateAt_ne (i j : Nat) (g : α → α) (l : List α) (h : i ≠ j) :
    (updateAt i g l)[j]? = l[j]? := by
  induction l generalizing i j with
  | nil => simp [updateAt_nil]
  | cons x xs ih =>
    cases i with
    | zero =>
      cases j with
      | zero => exact absurd rfl h
      | succ k => simp [updateAt]
    | succ i2 =>
      cases j with
      | zero => simp [updateAt]
      | succ k => simp [updateAt, ih i2 k (by omega)]

theorem getElem?_updateAt_self (i : Nat) (g : α → α) (l : List α) :
    (updateAt i g l)[i]? = l[i]?.map g := by
  induction l generalizing i with
  | nil => simp [updateAt_nil]
  | cons x xs ih =>
    cases i with
    | zero => simp [updateAt]
    | succ j => simp [updateAt, ih]

theorem writeFrames_nframes (a : List ℚ) (ps : List (ℚ × ℚ × ℚ)) (n : Nat)
    (f : MrcFile) : (writeFrames a ps n f).nframes = f.nframes := by
  induction n with
  | zero => rfl
  | succ m ih =>
    simp [writeFrames, MrcFileWriter.setPosition, MrcFileWriter.setAngle, ih]

theorem writeFrames_exttyp (a : List ℚ) (ps : List (ℚ × ℚ × ℚ)) (n : Nat)
    (f : MrcFile) : (writeFrames a ps n f).exttyp = f.exttyp := by
  induction n with
  | zero => rfl
  | succ m ih =>
    simp [writeFrames, MrcFileWriter.setPosition, MrcFileWriter.setAngle, ih]

theorem writeFrames_voxelSize (a : List ℚ) (ps : List (ℚ × ℚ × ℚ)) (n : Nat)
    (f : MrcFile) : (writeFrames a ps n f).voxelSize = f.voxelSize := by
  induction n with
  | zero => rfl
  | succ m ih =>
    simp [writeFrames, MrcFileWriter.setPosition, MrcFileWriter.setAngle, ih]

theorem writeFrames_extHeader_length (a : List ℚ) (ps : List (ℚ × ℚ × ℚ)) (n : Nat)
    (f : MrcFile) : (writeFrames a ps n f).extHeader.length = f.extHeader.length := by
  induction n with
  | zero => rfl
  | succ m ih =>
    simp [writeFrames, MrcFileWriter.setPosition, MrcFileWriter.setAngle,
      length_updateAt, ih]

theorem getElem?_writeFrames_ge (a : List ℚ) (ps : List (ℚ × ℚ × ℚ)) (n i : Nat)
    (f : MrcFile) (h : n ≤ i) :
    (writeFrames a ps n f).extHeader[i]? = f.extHeader[i]? := by
  induction n with
  | zero => rfl
  | succ m ih =>
    have hm : m ≤ i := by omega
    have hne : m ≠ i := by omega
    simp [writeFrames, MrcFileWriter.setPosition, MrcFileWriter.setAngle,
      getElem?_updateAt_ne m i _ _ hne, ih hm]

theorem getElem?_writeFrames_lt (a : List ℚ) (ps : List (ℚ × ℚ × ℚ)) (n i : Nat)
    (f : MrcFile) (h : i < n) :
    (writeFrames a ps n f).extHeader[i]? =
      f.extHeader[i]?.map (fun r =>
        { r with
          alphaTilt := a.getD i 0
          shiftX := (ps.getD i (0, 0, 0)).1
          shiftY := (ps.getD i (0, 0, 0)).2.1 }) := by
  induction n with
  | zero => omega
  | succ m ih =>
    by_cases hc : i < m
    · have hne : m ≠ i := by omega
      simp [writeFrames, MrcFileWriter.setPosition, MrcFileWriter.setAngle,
        getElem?_updateAt_ne m i _ _ hne, ih hc]
    · have hie : i = m := by omega
      subst hie
      simp only [writeFrames, MrcFileWriter.setPosition, MrcFileWriter.setAngle,
        getElem?_updateAt_self, getElem?_writeFrames_ge a ps i i f (le_refl i),
        Option.map_map]
      cases f.extHeader[i]? <;> rfl

/-! ## Claim theorems -/

/-- C7: unconditional, silent dtype narrowing at `MrcFileWriter` creation:
int32 becomes int16, uint32 becomes uint16, float64 becomes float32,
complex128 becomes complex64, and every other dtype passes through unchanged
(the construction is total — no error is possible). -/
theorem c7_dtype_narrowing (n : Nat) (p : ℚ) (d : Dtype) :
    (MrcFileWriter.init n p Dtype.int32).dtype = Dtype.int16 ∧
    (MrcFileWriter.init n p Dtype.uint32).dtype = Dtype.uint16 ∧
    (MrcFileWriter.init n p Dtype.float64).dtype = Dtype.float32 ∧
    (MrcFileWriter.init n p Dtype.complex128).dtype = Dtype.complex64 ∧
    (d ∉ [Dtype.int32, Dtype.uint32, Dtype.float64, Dtype.complex128] →
      (MrcFileWriter.init n p d).dtype = d) := by
  refine ⟨rfl, rfl, rfl, rfl, fun hd => ?_⟩
  cases d <;> simp_all [MrcFileWriter.init, mrcNarrowDtype]

/-- Witness for C7 at a concrete pass-through dtype. -/
theorem c7_dtype_narrowing_witness :
    Dtype.uint8 ∉ [Dtype.int32, Dtype.uint32, Dtype.float64, Dtype.complex128] ∧
    (MrcFileWriter.init 3 1 Dtype.uint8).dtype = Dtype.uint8 :=
  ⟨by decide, (c7_dtype_narrowing 3 1 Dtype.uint8).2.2.2.2 (by decide)⟩

/-- C10: the image-sequence frame write has no guard against `vmax = vmin`:
for a constant real frame with neither endpoint fixed, both effective
endpoints are the constant and the divisor of `s1 = 255 / (vmax - vmin)`
is zero, with no error path in the code. -/
theorem c10_zero_denominator (c : ℚ) (n : Nat) (hn : 0 < n) :
    imageEffectiveRange none none (List.replicate n c) = (c, c) ∧
    imageRescaleDenom none none (List.replicate n c) = 0 := by
  have h1 : imageEffectiveRange none none (List.replicate n c) = (c, c) := by
    simp [imageEffectiveRange, qmin_replicate n c hn, qmax_replicate n c hn]
  exact ⟨h1, by simp [imageRescaleDenom, h1]⟩

/-- Witness for C10 on a concrete constant frame. -/
theorem c10_zero_denominator_witness :
    0 < 3 ∧
    (imageEffectiveRange none none (List.replicate 3 (7 : ℚ)) = (7, 7) ∧
      imageRescaleDenom none none (List.replicate 3 (7 : ℚ)) = 0) :=
  ⟨by decide, c10_zero_denominator 7 3 (by decide)⟩

/-- C8 is a code bug: with `--vmin=0 --vmax=50` the export skips the global
scan (both endpoints are supplied, so neither `is None`) but the truthiness
guard `if args.vmin:` treats `0.0` as false and skips the override too,
leaving the writer's `vmin` unset, contrary to the claim that a
caller-supplied endpoint of `0` is fixed.  The scan itself (third conjunct)
does behave as claimed when neither endpoint is supplied. -/
theorem c8_vmin_zero_override_ignored :
    exportComputeRange (some 0) (some 50) [[0, 100], [5, 50]] ⟨none, none⟩ =
      ⟨none, some 50⟩ ∧
    (exportComputeRange (some 0) (some 50) [[0, 100], [5, 50]] ⟨none, none⟩).vmin ≠
      some 0 ∧
    exportComputeRange none none [[0, 100], [5, 50]] ⟨none, none⟩ =
      ⟨some 0, some 100⟩ := by
  refine ⟨?_, ?_, ?_⟩ <;> decide

/-- C9: any complex mode other than `"complex"` forces the output dtype to
float64, and the `"imaginary_square"` transform sends a frame whose
imaginary parts are all zero to the all-ones frame (from the `+ 1` offset of
`imag(x)^2 + 1`). -/
theorem c9_complex_mode (mode : String) (d : Dtype) (frame : List Cplx)
    (hm : mode ≠ "complex") (hz : ∀ z ∈ frame, z.im = 0) :
    exportDtype mode d = Dtype.float64 ∧
    imaginarySquareFrame frame = List.replicate frame.length 1 := by
  constructor
  · simp [exportDtype, hm]
  · induction frame with
    | nil => rfl
    | cons z t ih =>
      have hzz : z.im = 0 := hz z (by simp)
      have ht : ∀ w ∈ t, w.im = 0 := fun w hw => hz w (by simp [hw])
      simp [imaginarySquareFrame, imaginarySquarePixel, List.replicate_succ, hzz,
        ih ht]
      simpa [imaginarySquareFrame] using ih ht

/-- Witness for C9 at mode `"real"` and a concrete zero-imaginary frame. -/
theorem c9_complex_mode_witness :
    ("real" ≠ "complex" ∧ ∀ z ∈ [Cplx.mk 3 0, Cplx.mk 7 0], z.im = 0) ∧
    (exportDtype "real" Dtype.complex64 = Dtype.float64 ∧
      imaginarySquareFrame [Cplx.mk 3 0, Cplx.mk 7 0] =
        List.replicate (List.length [Cplx.mk 3 0, Cplx.mk 7 0]) 1) :=
  ⟨⟨by decide, by decide⟩,
    c9_complex_mode "real" Dtype.complex64 [Cplx.mk 3 0, Cplx.mk 7 0]
      (by decide) (by decide)⟩

/-- C5: permissive Binary-Volume read — a file whose header does not declare
the FEI1 extended-header layout reads back without error, with all-zero
angle and position arrays sized by the frame count. -/
theorem c5_permissive_mrc_read (f : MrcFile) (h : f.exttyp ≠ "FEI1") :
    Reader.from_mrcfile f =
      Except.ok
        { nframes := f.nframes
          angle := List.replicate f.nframes 0
          position := List.replicate f.nframes (0, 0, 0)
          pixel_size := f.voxelSize } := by
  simp [Reader.from_mrcfile, h, Reader.make]

/-- Witness for C5 on a concrete non-FEI1 file. -/
theorem c5_permissive_mrc_read_witness :
    Reader.from_mrcfile
        { nframes := 2, exttyp := "MRCO", extHeader := [], voxelSize := 5,
          dtype := Dtype.uint8 } =
      Except.ok
        { nframes := 2
          angle := List.replicate 2 0
          position := List.replicate 2 (0, 0, 0)
          pixel_size := 5 } :=
  c5_permissive_mrc_read _ (by decide)

/-- C2: the derived-statistics law.  With one frame, `step_angle = 1` and
`step_position = ok 0` regardless of the stored values; with more than one
frame, `step_angle` is the mean first-difference of the angle array and
`step_position` is the mean first-difference of the Y components of the
position array (the scalar position coordinate the Reader uses throughout:
`start_position`/`stop_position` are also `position[i][1]`), and the
source's assertion never fires because it zips against the empty slice
`position[1:1]`. -/
theorem c2_derived_step_law (r : Reader) (ha : r.angle.length = r.nframes)
    (hp : r.position.length = r.nframes) :
    (r.nframes = 1 → r.step_angle = 1 ∧ r.step_position = Except.ok 0) ∧
    (1 < r.nframes →
      r.step_angle = specMeanFirstDiff r.angle ∧
      r.step_position =
        Except.ok (specMeanFirstDiff (r.position.map (fun p => p.2.1)))) := by
  constructor
  · intro h1
    refine ⟨?_, ?_⟩
    · rw [Reader.step_angle, if_pos (by omega)]
    · rw [Reader.step_position, if_neg (by omega)]
  · intro h2
    refine ⟨?_, ?_⟩
    · rw [Reader.step_angle, if_neg (by omega), stepFormula_eq_specMeanFirstDiff]
    · rw [Reader.step_position, if_pos (by omega)]
      simp only [List.take_zero, List.zip_nil_right, List.all_nil, if_true]
      have hlen : (r.position.map (fun p => p.2.1)).length = r.position.length :=
        List.length_map _ _
      rw [show ((r.position.length : ℚ) - 1) =
          (((r.position.map (fun p => p.2.1)).length : ℚ) - 1) by rw [hlen]]
      rw [stepFormula_eq_specMeanFirstDiff]

/-- Witness for C2 on a concrete two-frame Reader. -/
theorem c2_derived_step_law_witness :
    (1 < (2 : Nat)) ∧
    (Reader.step_angle
        (Reader.mk 2 [0, 10] [(1, 2, 3), (4, 5, 6)] 1) =
      specMeanFirstDiff [0, 10] ∧
    Reader.step_position
        (Reader.mk 2 [0, 10] [(1, 2, 3), (4, 5, 6)] 1) =
      Except.ok (specMeanFirstDiff
        ([((1 : ℚ), (2 : ℚ), (3 : ℚ)), (4, 5, 6)].map (fun p => p.2.1)))) :=
  ⟨by decide,
    (c2_derived_step_law (Reader.mk 2 [0, 10] [(1, 2, 3), (4, 5, 6)] 1)
      rfl rfl).2 (by decide)⟩

/-- C4 counterexample: the claim that the global voxel-size record stores
`p / 1e10` fails at `p = 1` — the writer stores `p` there unchanged
(io.py line 212); only the per-frame extended-header pixel-size fields get
the `1e-10` factor. -/
theorem c4_counterexample :
    (MrcFileWriter.init 1 1 Dtype.float32).voxelSize = 1 ∧
    ¬ (MrcFileWriter.init 1 1 Dtype.float32).voxelSize = 1 * (1 / 10 ^ 10) := by
  constructor
  · rfl
  · norm_num [MrcFileWriter.init]

/-- C4 amended: the global voxel-size record stores `p` unchanged and is read
back unchanged by both the writer's `pixel_size` property and
`Reader.from_mrcfile`, so the reported pixel size equals `p` with no
conversion anywhere on that path; the `1e-10` factor is applied only to the
per-frame extended-header pixel-size fields, which the reader does not
consult. -/
theorem c4_amended_pixel_size (n i : Nat) (p : ℚ) (d : Dtype) (hi : i < n) :
    (MrcFileWriter.init n p d).voxelSize = p ∧
    MrcFileWriter.pixel_size (MrcFileWriter.init n p d) = p ∧
    ((MrcFileWriter.init n p d).extHeader[i]?).map (fun r => r.pixelSizeX) =
      some (p * (1 / 10 ^ 10)) ∧
    ∃ r, Reader.from_mrcfile (MrcFileWriter.init n p d) = Except.ok r ∧
      r.pixel_size = p := by
  refine ⟨rfl, rfl, ?_, ?_⟩
  · simp [MrcFileWriter.init, List.getElem?_replicate_of_lt hi]
  · refine
      ⟨Reader.mk n
        ((MrcFileWriter.init n p d).extHeader.map (fun r => r.alphaTilt))
        ((MrcFileWriter.init n p d).extHeader.map
          (fun r => (r.shiftX, r.shiftY, (0 : ℚ))))
        p, ?_, rfl⟩
    simp [Reader.from_mrcfile, Reader.make, MrcFileWriter.init]

/-- Witness for C4's amended claim at `n = 1`, `p = 3`. -/
theorem c4_amended_pixel_size_witness :
    (0 < 1) ∧
    ((MrcFileWriter.init 1 3 Dtype.uint8).voxelSize = 3 ∧
     MrcFileWriter.pixel_size (MrcFileWriter.init 1 3 Dtype.uint8) = 3 ∧
     ((MrcFileWriter.init 1 3 Dtype.uint8).extHeader[0]?).map
        (fun r => r.pixelSizeX) = some (3 * (1 / 10 ^ 10)) ∧
     ∃ r, Reader.from_mrcfile (MrcFileWriter.init 1 3 Dtype.uint8) =
        Except.ok r ∧ r.pixel_size = 3) :=
  ⟨by decide, c4_amended_pixel_size 1 0 3 Dtype.uint8 (by decide)⟩

/-- C6: the structured-container read is strict — it never returns a Reader
when the tomography definition tag is absent or differs from `"NXtomo"`, and
on success the reported pixel size is the first detector pixel-size entry. -/
theorem c6_strict_nexus_read (f : NexusFile) :
    (f.definition ≠ some "NXtomo" → ∀ r, Reader.from_nexus f ≠ Except.ok r) ∧
    (∀ r, Reader.from_nexus f = Except.ok r →
      f.xPixelSize.head? = some r.pixel_size) := by
  constructor
  · intro hd r hok
    unfold Reader.from_nexus at hok
    split at hok
    · split at hok
      · simp at hok
      · split at hok
        · simp_all
        · simp at hok
    · simp at hok
  · intro r hok
    unfold Reader.from_nexus at hok
    split at hok
    · split at hok
      · simp at hok
      · split at hok
        · split at hok
          · simp at hok
          · rename_i px hpx
            unfold Reader.make at hok
            split at hok
            · injection hok with h
              rw [hpx, ← h]
            · simp at hok
        · simp at hok
    · simp at hok

/-- Witness for C6: a mismatched tag never yields a Reader, and a concrete
well-formed container reports its first pixel-size entry. -/
theorem c6_strict_nexus_read_witness :
    (some "NXother" ≠ some "NXtomo" ∧
      Reader.from_nexus
          (NexusFile.mk "NXentry" (some "NXother") [1] [0] [0] [0] [0] 1) ≠
        Except.ok (Reader.mk 1 [0] [(0, 0, 0)] 1)) ∧
    ([(2 : ℚ)].head? =
      some (Reader.pixel_size (Reader.mk 1 [0] [(0, 0, 0)] 2))) :=
  ⟨⟨by decide,
    (c6_strict_nexus_read
      (NexusFile.mk "NXentry" (some "NXother") [1] [0] [0] [0] [0] 1)).1
      (by decide) _⟩,
   (c6_strict_nexus_read
      (NexusFile.mk "NXentry" (some "NXtomo") [2] [0] [0] [0] [0] 1)).2
      (Reader.mk 1 [0] [(0, 0, 0)] 2) (by rfl)⟩

/-- C3: extension dispatch is case-insensitive (the routing depends only on
the lowered extension) and total over the documented table: `.mrc` routes to
the Binary-Volume backend in both directions, the structured-container
extensions route to the Structured-Container backend in both directions, the
image extensions route to the Image-Sequence writer but fail on read, and
every other extension fails in both directions with the unknown-extension
error. -/
theorem c3_dispatch_table (f : String) :
    (lowerExt f = ".mrc" →
      ioNew f = Except.ok WriterKind.mrcW ∧
      ioOpenRoute f = Except.ok ReaderKind.mrcR) ∧
    (lowerExt f ∈ nexusExts →
      ioNew f = Except.ok WriterKind.nexusW ∧
      ioOpenRoute f = Except.ok ReaderKind.nexusR) ∧
    (lowerExt f ∈ imageExts →
      ioNew f = Except.ok WriterKind.imageW ∧
      ioOpenRoute f = Except.error ("File with unknown extension: " ++ f)) ∧
    (lowerExt f ∉ ".mrc" :: (nexusExts ++ imageExts) →
      ioNew f = Except.error ("File with unknown extension: " ++ f) ∧
      ioOpenRoute f = Except.error ("File with unknown extension: " ++ f)) ∧
    (∀ g : String, lowerExt g = lowerExt f →
      (ioNew g).toOption = (ioNew f).toOption ∧
      (ioOpenRoute g).toOption = (ioOpenRoute f).toOption) := by
  refine ⟨?_, ?_, ?_, ?_, ?_⟩
  · intro h
    constructor <;> simp [ioNew, ioOpenRoute, h]
  · intro h
    simp only [nexusExts, List.mem_cons, List.not_mem_nil, or_false] at h
    rcases h with h | h | h | h | h | h <;>
      constructor <;>
      simp [ioNew, ioOpenRoute, h, nexusExts, imageExts]
  · intro h
    simp only [imageExts, List.mem_cons, List.not_mem_nil, or_false] at h
    rcases h with h | h | h | h | h <;>
      constructor <;>
      simp [ioNew, ioOpenRoute, h, nexusExts, imageExts]
  · intro h
    simp only [List.mem_cons, List.mem_append, not_or] at h
    constructor <;> simp [ioNew, ioOpenRoute, h.1, h.2.1, h.2.2]
  · intro g hg
    by_cases h1 : lowerExt f = ".mrc" <;>
      by_cases h2 : lowerExt f ∈ nexusExts <;>
      by_cases h3 : lowerExt f ∈ imageExts <;>
      constructor <;>
      simp [ioNew, ioOpenRoute, Except.toOption, hg, h1, h2, h3]

/-- Witness for C3: concrete routes for an upper-case `.MRC` path, an `.nxs`
path, a `.png` path, and an unknown `.xyz` path. -/
theorem c3_dispatch_table_witness :
    (lowerExt "a.MRC" = ".mrc" ∧
      ioNew "a.MRC" = Except.ok WriterKind.mrcW ∧
      ioOpenRoute "a.MRC" = Except.ok ReaderKind.mrcR) ∧
    (lowerExt "b.nxs" ∈ nexusExts ∧
      ioNew "b.nxs" = Except.ok WriterKind.nexusW) ∧
    (lowerExt "c.png" ∈ imageExts ∧
      ioOpenRoute "c.png" = Except.error ("File with unknown extension: " ++ "c.png")) ∧
    (lowerExt "d.xyz" ∉ ".mrc" :: (nexusExts ++ imageExts) ∧
      ioNew "d.xyz" = Except.error ("File with unknown extension: " ++ "d.xyz")) :=
  ⟨⟨by decide, (c3_dispatch_table "a.MRC").1 (by decide)⟩,
   ⟨by decide, ((c3_dispatch_table "b.nxs").2.1 (by decide)).1⟩,
   ⟨by decide, ((c3_dispatch_table "c.png").2.2.1 (by decide)).2⟩,
   ⟨by decide, ((c3_dispatch_table "d.xyz").2.2.2.1 (by decide)).1⟩⟩

/-- C1: Binary-Volume round trip.  Writing every frame's angle and position
through the writer's proxies and reading the file back through
`Reader.from_mrcfile` recovers each angle exactly and each position as
`(x, y, 0)` — X and Y survive and Z always reads back as `0` (the position
proxy never stores it). -/
theorem c1_mrc_roundtrip (n : Nat) (p : ℚ) (d : Dtype) (a : List ℚ)
    (ps : List (ℚ × ℚ × ℚ)) (ha : a.length = n) (hp : ps.length = n) :
    ∃ r : Reader,
      Reader.from_mrcfile (writeFrames a ps n (MrcFileWriter.init n p d)) =
        Except.ok r ∧
      r.angle = a ∧
      r.position = ps.map (fun q => (q.1, q.2.1, (0 : ℚ))) := by
  have hE : (writeFrames a ps n (MrcFileWriter.init n p d)).exttyp = "FEI1" := by
    rw [writeFrames_exttyp]; rfl
  have hL : (writeFrames a ps n (MrcFileWriter.init n p d)).extHeader.length = n := by
    rw [writeFrames_extHeader_length]
    simp [MrcFileWriter.init]
  have hN : (writeFrames a ps n (MrcFileWriter.init n p d)).nframes = n := by
    rw [writeFrames_nframes]; rfl
  have hV : (writeFrames a ps n (MrcFileWriter.init n p d)).voxelSize = p := by
    rw [writeFrames_voxelSize]; rfl
  have hgetA : ∀ i : Nat,
      ((writeFrames a ps n (MrcFileWriter.init n p d)).extHeader.map
        (fun r => r.alphaTilt))[i]? = a[i]? := by
    intro i
    rw [List.getElem?_map]
    by_cases hi : i < n
    · rw [getElem?_writeFrames_lt a ps n i _ hi]
      simp [MrcFileWriter.init, List.getElem?_replicate_of_lt hi,
        List.getD_eq_getElem?_getD, List.getElem?_eq_getElem (ha ▸ hi)]
    · rw [getElem?_writeFrames_ge a ps n i _ (by omega)]
      rw [List.getElem?_eq_none (by simp [MrcFileWriter.init]; omega)]
      rw [List.getElem?_eq_none (by omega)]
      rfl
  have hgetP : ∀ i : Nat,
      ((writeFrames a ps n (MrcFileWriter.init n p d)).extHeader.map
        (fun r => (r.shiftX, r.shiftY, (0 : ℚ))))[i]? =
      (ps.map (fun q => (q.1, q.2.1, (0 : ℚ))))[i]? := by
    intro i
    rw [List.getElem?_map, List.getElem?_map]
    by_cases hi : i < n
    · rw [getElem?_writeFrames_lt a ps n i _ hi]
      simp [MrcFileWriter.init, List.getElem?_replicate_of_lt hi,
        List.getD_eq_getElem?_getD, List.getElem?_eq_getElem (hp ▸ hi)]
    · rw [getElem?_writeFrames_ge a ps n i _ (by omega)]
      rw [List.getElem?_eq_none (by simp [MrcFileWriter.init]; omega)]
      rw [List.getElem?_eq_none (by omega)]
      rfl
  have hA : (writeFrames a ps n (MrcFileWriter.init n p d)).extHeader.map
      (fun r => r.alphaTilt) = a := List.ext_getElem? hgetA
  have hP : (writeFrames a ps n (MrcFileWriter.init n p d)).extHeader.map
      (fun r => (r.shiftX, r.shiftY, (0 : ℚ))) =
      ps.map (fun q => (q.1, q.2.1, (0 : ℚ))) := List.ext_getElem? hgetP
  refine ⟨Reader.mk n a (ps.map (fun q => (q.1, q.2.1, (0 : ℚ)))) p, ?_, rfl, rfl⟩
  unfold Reader.from_mrcfile
  rw [if_pos hE, if_pos (hL.trans hN.symm), hA, hP, hN, hV]
  unfold Reader.make
  rw [if_pos ⟨ha, by simp [hp]⟩]

/-- Witness for C1: a concrete two-frame dataset round-trips with Z zeroed. -/
theorem c1_mrc_roundtrip_witness :
    ∃ r : Reader,
      Reader.from_mrcfile
          (writeFrames [1, 2] [(3, 4, 5), (6, 7, 8)] 2
            (MrcFileWriter.init 2 9 Dtype.uint8)) =
        Except.ok r ∧
      r.angle = [1, 2] ∧
      r.position = [((3 : ℚ), (4 : ℚ), (5 : ℚ)), (6, 7, 8)].map
        (fun q => (q.1, q.2.1, (0 : ℚ))) :=
  c1_mrc_roundtrip 2 9 Dtype.uint8 [1, 2] [(3, 4, 5), (6, 7, 8)] rfl rfl

end Amplus
